import Mathlib

/-!
Verification of the Samkitec document-repository backend.

The repository contains several near-duplicate Express backends:
* `src/server/index.js`, first variant (called `uploadA` / `listDocsA` /
  `renameA` / `deleteA` below): Postgres + Cloudinary, no scanner;
* `src/server/index.js`, second variant (`uploadB`): the same with an
  optional ClamAV scan guarded by `ENABLE_CLAMAV`;
* `src/unnamed/part_003` (`uploadScan` / `deleteScan`): Postgres +
  Cloudinary + ClamAV with an audit log.

Each HTTP handler is embedded as a pure function from the request, an
environment describing the behaviour of the external collaborators
(Cloudinary, ClamAV, the database) and the current store contents to an
outcome: the HTTP response, the new store contents, the list of external
calls made, and whether the local temp file was removed.
-/

namespace Samkitec

/-- A multipart file part as multer presents it (`req.file`). -/
structure FileInfo where
  originalname : String
  mimetype : String
  size : Nat
deriving DecidableEq

/-- The non-file form fields of an upload request (`req.body`).  JS treats
the empty string like an absent field (falsy), so absent fields are
modelled as `""`. -/
structure ReqBody where
  title : String
  description : String
  doc_type : String
deriving DecidableEq

/-- An upload request: `req.file` is `none` when no file part was sent. -/
structure UploadReq where
  file : Option FileInfo
  body : ReqBody
deriving DecidableEq

/-- The result object of a successful `cloudinary.uploader.upload` call. -/
structure CloudRes where
  secure_url : String
  public_id : String
deriving DecidableEq

/-- Behaviour of the ClamAV scanner for this request: a clean verdict, an
infected verdict, or a failure to respond (connection error / timeout,
surfaced in JS as a rejected promise). -/
inductive ScanBeh
  | clean
  | infected (viruses : List String)
  | unavailable
deriving DecidableEq

/-- Behaviour of the external collaborators during one request, plus the
generated UUID and the database clock. `cloud = none` models a failing
(throwing) Cloudinary upload; `insertOk = false` a failing `INSERT`. -/
structure Env where
  scan : ScanBeh
  cloud : Option CloudRes
  insertOk : Bool
  enableClamav : Bool
  newId : String
  now : Nat
deriving DecidableEq

/-- A row of the `documents` table.  `upload_date` is an abstract
timestamp (larger = later).  `part_003`'s schema has no `file_public_id`
column; its handler stores `""` there. -/
structure Doc where
  id : String
  original_name : String
  file_url : String
  file_public_id : String
  mime_type : String
  size : Nat
  upload_date : Nat
  title : String
  description : String
  doc_type : String
deriving DecidableEq

/-- The persistent state visible to the handlers: the metadata rows and
the object-store blobs (identified by their public ids). -/
structure World where
  docs : List Doc
  blobs : List String
deriving DecidableEq

/-- The external calls a handler can make, in order. -/
inductive ExtCall
  | scanCall
  | cloudUploadCall
  | cloudDestroyCall
  | dbInsertCall
  | dbDeleteCall
deriving DecidableEq

/-- HTTP responses produced by the handlers.  `okIdUrl` is the
`{id, file_url}` payload of `index.js`; `okMeta` is `part_003` returning
the whole metadata object; `okSuccess` is `{success:true}`. -/
inductive Resp
  | okIdUrl (id : String) (file_url : String)
  | okMeta (doc : Doc)
  | okSuccess
  | err (status : Nat) (msg : String)
deriving DecidableEq

/-- Everything observable about one handler run. `tempDeleted` records
whether the multer temp file is gone at the end of the run. -/
structure Outcome where
  resp : Resp
  world : World
  calls : List ExtCall
  tempDeleted : Bool
deriving DecidableEq

/-! ### String machinery: SQL `ILIKE` and the case-insensitive substring
predicate of the specification. -/

/-- ASCII lower-casing, the case-folding used to model `ILIKE`. -/
def lowerChar : Char → Char
  | 'A' => 'a' | 'B' => 'b' | 'C' => 'c' | 'D' => 'd' | 'E' => 'e'
  | 'F' => 'f' | 'G' => 'g' | 'H' => 'h' | 'I' => 'i' | 'J' => 'j'
  | 'K' => 'k' | 'L' => 'l' | 'M' => 'm' | 'N' => 'n' | 'O' => 'o'
  | 'P' => 'p' | 'Q' => 'q' | 'R' => 'r' | 'S' => 's' | 'T' => 't'
  | 'U' => 'u' | 'V' => 'v' | 'W' => 'w' | 'X' => 'x' | 'Y' => 'y'
  | 'Z' => 'z'
  | c => c

/-- Lower-case a character list. -/
def lowerL (cs : List Char) : List Char := cs.map lowerChar

/-- SQL `LIKE` pattern matching: `%` matches any sequence (the rest of
the pattern may match any suffix of the text), `_` matches any single
character, anything else matches itself. -/
def likeMatch : List Char → List Char → Bool
  | [], s => s.isEmpty
  | p :: ps, s =>
    if p = '%' then
      s.tails.any (fun t => likeMatch ps t)
    else
      match s with
      | [] => false
      | c :: s2 => (p == '_' || p == c) && likeMatch ps s2

/-- `ILIKE '%pat%'` as the listing routes build it: the raw search text
is spliced between two `%` marks with no escaping, and matching is
case-insensitive. -/
def ilikeCI (pat s : String) : Bool :=
  likeMatch ('%' :: (lowerL pat.toList ++ ['%'])) (lowerL s.toList)

/-- Whether `n` is a prefix of `h`, on character lists. -/
def prefixMatch : List Char → List Char → Bool
  | [], _ => true
  | _ :: _, [] => false
  | a :: as, b :: bs => a == b && prefixMatch as bs

/-- Whether `n` occurs as a contiguous substring of `h`: it is a prefix
of some suffix of `h`. -/
def subStringIn (n : List Char) (h : List Char) : Bool :=
  h.tails.any (prefixMatch n)

/-- Case-insensitive substring containment, the search semantics the
specification describes. -/
def containsCI (needle hay : String) : Bool :=
  subStringIn (lowerL needle.toList) (lowerL hay.toList)

/-- A search term free of the SQL wildcard characters `%` and `_`. -/
def noWildcards (s : String) : Prop :=
  ∀ c ∈ s.toList, c ≠ '%' ∧ c ≠ '_'

instance (s : String) : Decidable (noWildcards s) := by
  unfold noWildcards; infer_instance

/-! ### The listing route of `src/server/index.js` (first variant). -/

/-- The query string of `GET /api/documents`.  `search` defaults to `""`
(the JS destructuring default); the other parameters are absent (`none`)
or present with some text. -/
structure ListQuery where
  search : String
  fromQ : Option String
  toQ : Option String
  typeQ : Option String
deriving DecidableEq

/-- The JS guard `s.trim() !== ''`: `s` contains a non-whitespace
character. -/
def hasNonWS (s : String) : Bool := s.toList.any (fun c => !c.isWhitespace)

/-- How the route turns one of the `from`/`to` parameters into a bound:
the clause is added only when the parameter is truthy and does not trim
to the empty string; an added clause casts the raw text with
`::timestamp`, and a failing cast makes the whole query raise (caught by
the route and turned into HTTP 500). `cast` is the cast function of the
underlying database. -/
def dateBound (cast : String → Option Nat) : Option String → Except String (Option Nat)
  | none => .ok none
  | some s =>
    if hasNonWS s then
      match cast s with
      | some t => .ok (some t)
      | none => .error "invalid input syntax for type timestamp"
    else .ok none

/-- The `doc_type` clause: added only when `type` is truthy and not
`'all'` (`if (type && type !== 'all')`). -/
def typeFilter : Option String → Option String
  | none => none
  | some t => if t ≠ "" ∧ t ≠ "all" then some t else none

/-- The search clause of the route: `title ILIKE $i OR original_name
ILIKE $i` with the parameter `%search%`. -/
def searchPred (search : String) (r : Doc) : Bool :=
  ilikeCI search r.title || ilikeCI search r.original_name

/-- The `WHERE` clause the route assembles: the conjunction of the
clauses that were added.  The search clause is present only when
`search` is truthy (`if (search)`). -/
def implMatch (q : ListQuery) (fromB toB : Option Nat) (r : Doc) : Bool :=
  ((q.search == "") || searchPred q.search r) &&
  (match fromB with | none => true | some t => decide (t ≤ r.upload_date)) &&
  (match toB with | none => true | some t => decide (r.upload_date ≤ t)) &&
  (match typeFilter q.typeQ with | none => true | some t => r.doc_type == t)

/-- `ORDER BY upload_date DESC`: later rows first. -/
def docGE (a b : Doc) : Prop := b.upload_date ≤ a.upload_date

instance : DecidableRel docGE := fun a b => Nat.decLe b.upload_date a.upload_date

instance : IsTotal Doc docGE := ⟨fun a b => Nat.le_total b.upload_date a.upload_date⟩

instance : IsTrans Doc docGE := ⟨fun _ _ _ h1 h2 => Nat.le_trans h2 h1⟩

/-- The listing route of `src/server/index.js` (first variant; lines
117-158): conditionally assembled `WHERE` clauses, `ORDER BY
upload_date DESC`; any raised database error is answered with HTTP 500
(the `.error` case).  The `WHERE deleted_at IS NULL` clause is omitted
because no operation in this codebase ever sets `deleted_at`. -/
def listDocsA (cast : String → Option Nat) (q : ListQuery) (rows : List Doc) :
    Except String (List Doc) :=
  match dateBound cast q.fromQ with
  | .error e => .error e
  | .ok fromB =>
    match dateBound cast q.toQ with
    | .error e => .error e
    | .ok toB =>
      .ok (List.insertionSort docGE (rows.filter (implMatch q fromB toB)))

/-! A concrete model of the PostgreSQL `text → timestamp` cast, used to
instantiate the `cast` parameter in witnesses and counterexamples: it
accepts `YYYY-MM-DD` date strings and rejects other text. -/

/-- Read a non-empty all-digit character list as a number. -/
def readNat (cs : List Char) : Option Nat :=
  if cs ≠ [] ∧ cs.all Char.isDigit then
    some (cs.foldl (fun a c => a * 10 + (c.toNat - 48)) 0)
  else none

/-- Split a character list on `'-'`. -/
def splitOnDash : List Char → List (List Char)
  | [] => [[]]
  | c :: cs =>
    if c = '-' then [] :: splitOnDash cs
    else
      match splitOnDash cs with
      | [] => [[c]]
      | g :: gs => (c :: g) :: gs

/-- Model of the PostgreSQL `::timestamp` cast restricted to the date
strings relevant here: `YYYY-MM-DD` is accepted (and ordered
lexicographically via `y*10000 + m*100 + d`), anything else raises. -/
def pgCast (s : String) : Option Nat :=
  match splitOnDash s.toList with
  | [y, m, d] =>
    match readNat y, readNat m, readNat d with
    | some yn, some mn, some dn => some (yn * 10000 + mn * 100 + dn)
    | _, _, _ => none
  | _ => none

/-! ### The specification-side description of the listing. -/

/-- The filters of the specification, already interpreted: `none` means
the filter is absent. -/
structure SpecFilters where
  searchTerm : Option String
  fromDate : Option Nat
  toDate : Option Nat
  docType : Option String
deriving DecidableEq

/-- The record predicate as the specification words it: the conjunction
of the supplied filters, with the search matching case-insensitively as
a substring of `title` or `original_name`, inclusive date bounds on
`upload_date`, and exact `doc_type` match. -/
def specMatch (sf : SpecFilters) (r : Doc) : Bool :=
  (match sf.searchTerm with
   | none => true
   | some n => containsCI n r.title || containsCI n r.original_name) &&
  (match sf.fromDate with | none => true | some t => decide (t ≤ r.upload_date)) &&
  (match sf.toDate with | none => true | some t => decide (r.upload_date ≤ t)) &&
  (match sf.docType with | none => true | some t => r.doc_type == t)

/-! ### The upload routes. -/

/-- The allowed MIME types (`allowedTypes` in `index.js`). -/
def allowedTypes : List String :=
  ["application/pdf", "application/msword",
   "application/vnd.openxmlformats-officedocument.wordprocessingml.document"]

/-- The row the `index.js` upload routes insert: note the hard-coded
`''` in the `description` position of the `INSERT`, and the JS `||`
defaults for `title` and `doc_type`. -/
def mkDocA (env : Env) (f : FileInfo) (b : ReqBody) (c : CloudRes) : Doc :=
  { id := env.newId
    original_name := f.originalname
    file_url := c.secure_url
    file_public_id := c.public_id
    mime_type := f.mimetype
    size := f.size
    upload_date := env.now
    title := if b.title = "" then f.originalname else b.title
    description := ""
    doc_type := if b.doc_type = "" then "process" else b.doc_type }

/-- The row `part_003` inserts: its schema has no `file_public_id`
column (stored as `""` here), and `description` is
`req.body.description || ''`. -/
def mkDocScan (env : Env) (f : FileInfo) (b : ReqBody) (c : CloudRes) : Doc :=
  { id := env.newId
    original_name := f.originalname
    file_url := c.secure_url
    file_public_id := ""
    mime_type := f.mimetype
    size := f.size
    upload_date := env.now
    title := if b.title = "" then f.originalname else b.title
    description := if b.description = "" then "" else b.description
    doc_type := if b.doc_type = "" then "process" else b.doc_type }

/-- `POST /api/upload` of `src/server/index.js`, first variant (lines
74-114): missing-file check, MIME-type check, Cloudinary upload, temp
unlink, metadata `INSERT`; any exception in the `try` block is answered
with HTTP 500 after unlinking a still-existing temp file.  No size
check, no scanner, and no compensating blob delete appear in the
source. -/
def uploadA (env : Env) (req : UploadReq) (w : World) : Outcome :=
  match req.file with
  | none => { resp := .err 400 "No file uploaded", world := w, calls := [], tempDeleted := true }
  | some f =>
    if f.mimetype ∈ allowedTypes then
      match env.cloud with
      | none =>
        { resp := .err 500 "upload failed", world := w,
          calls := [.cloudUploadCall], tempDeleted := true }
      | some c =>
        if env.insertOk then
          { resp := .okIdUrl env.newId c.secure_url
            world := { docs := mkDocA env f req.body c :: w.docs
                       blobs := c.public_id :: w.blobs }
            calls := [.cloudUploadCall, .dbInsertCall]
            tempDeleted := true }
        else
          { resp := .err 500 "insert failed"
            world := { w with blobs := c.public_id :: w.blobs }
            calls := [.cloudUploadCall, .dbInsertCall]
            tempDeleted := true }
    else
      { resp := .err 400 "Invalid file type", world := w, calls := [], tempDeleted := true }

/-- `POST /api/upload` of `src/unnamed/part_003` (lines 117-174):
missing-file check, ClamAV scan (infected rejects with HTTP 400 after
unlinking; a scanner failure falls into the `catch` and is answered
with HTTP 500), Cloudinary upload, temp unlink, metadata `INSERT`.
There is no MIME-type check and no size check in this route. -/
def uploadScan (env : Env) (req : UploadReq) (w : World) : Outcome :=
  match req.file with
  | none => { resp := .err 400 "No file uploaded", world := w, calls := [], tempDeleted := true }
  | some f =>
    match env.scan with
    | .unavailable =>
      { resp := .err 500 "scanner unavailable", world := w,
        calls := [.scanCall], tempDeleted := true }
    | .infected _ =>
      { resp := .err 400 "Security Alert: File rejected due to virus detection.",
        world := w, calls := [.scanCall], tempDeleted := true }
    | .clean =>
      match env.cloud with
      | none =>
        { resp := .err 500 "upload failed", world := w,
          calls := [.scanCall, .cloudUploadCall], tempDeleted := true }
      | some c =>
        if env.insertOk then
          { resp := .okMeta (mkDocScan env f req.body c)
            world := { docs := mkDocScan env f req.body c :: w.docs
                       blobs := c.public_id :: w.blobs }
            calls := [.scanCall, .cloudUploadCall, .dbInsertCall]
            tempDeleted := true }
        else
          { resp := .err 500 "insert failed"
            world := { w with blobs := c.public_id :: w.blobs }
            calls := [.scanCall, .cloudUploadCall, .dbInsertCall]
            tempDeleted := true }

/-- `POST /api/upload` of `src/server/index.js`, second variant (lines
289-334): like `uploadA` but with an optional ClamAV scan.  An infected
verdict is raised as `throw new Error('Virus detected')`, which the
generic `catch` answers with HTTP **500**; an unavailable scanner also
lands in the `catch` with HTTP 500. -/
def uploadB (env : Env) (req : UploadReq) (w : World) : Outcome :=
  match req.file with
  | none => { resp := .err 400 "No file uploaded", world := w, calls := [], tempDeleted := true }
  | some f =>
    if f.mimetype ∈ allowedTypes then
      match (if env.enableClamav then some env.scan else none) with
      | some .unavailable =>
        { resp := .err 500 "scanner unavailable", world := w,
          calls := [.scanCall], tempDeleted := true }
      | some (.infected _) =>
        { resp := .err 500 "Virus detected", world := w,
          calls := [.scanCall], tempDeleted := true }
      | _ =>
        let pre : List ExtCall := if env.enableClamav then [.scanCall] else []
        match env.cloud with
        | none =>
          { resp := .err 500 "upload failed", world := w,
            calls := pre ++ [.cloudUploadCall], tempDeleted := true }
        | some c =>
          if env.insertOk then
            { resp := .okIdUrl env.newId c.secure_url
              world := { docs := mkDocA env f req.body c :: w.docs
                         blobs := c.public_id :: w.blobs }
              calls := pre ++ [.cloudUploadCall, .dbInsertCall]
              tempDeleted := true }
          else
            { resp := .err 500 "insert failed"
              world := { w with blobs := c.public_id :: w.blobs }
              calls := pre ++ [.cloudUploadCall, .dbInsertCall]
              tempDeleted := true }
    else
      { resp := .err 400 "Invalid file type", world := w, calls := [], tempDeleted := true }

/-! ### Rename and delete. -/

/-- The outcome of a rename or delete request. -/
structure LifeOutcome where
  resp : Resp
  world : World
  calls : List ExtCall
deriving DecidableEq

/-- `PUT /api/documents/:id` of `src/server/index.js`:
`UPDATE documents SET title=$1 WHERE id=$2 RETURNING *`; zero updated
rows answer HTTP 404.  The `UPDATE` touches only the `title` column of
the matching rows and never the object store. -/
def renameA (id title : String) (w : World) : LifeOutcome :=
  match w.docs.find? (fun r => r.id == id) with
  | none => { resp := .err 404 "Not found", world := w, calls := [] }
  | some d =>
    { resp := .okMeta { d with title := title }
      world := { w with
                 docs := w.docs.map fun r =>
                   if r.id == id then { r with title := title } else r }
      calls := [] }

/-- `DELETE /api/documents/:id` of `src/server/index.js` (lines
172-199).  The handler has no `try`/`catch`: a failing
`cloudinary.uploader.destroy` rejects the handler's promise, the `DELETE
FROM documents` below it never runs and no success is sent (modelled as
a 500-class failure).  `destroyOk` is the behaviour of the Cloudinary
delete. -/
def deleteA (destroyOk : Bool) (id : String) (w : World) : LifeOutcome :=
  match w.docs.find? (fun r => r.id == id) with
  | none => { resp := .err 404 "Not found", world := w, calls := [] }
  | some d =>
    if destroyOk then
      { resp := .okSuccess
        world := { docs := w.docs.filter (fun r => !(r.id == id))
                   blobs := w.blobs.erase d.file_public_id }
        calls := [.cloudDestroyCall, .dbDeleteCall] }
    else
      { resp := .err 500 "cloudinary destroy failed", world := w,
        calls := [.cloudDestroyCall] }

/-- The Cloudinary public id `part_003` derives from a stored URL
(`doc.file_url.split('/').pop().split('.')[0]` prefixed with the
folder). -/
def deriveKey (url : String) : String :=
  "samkitec_reports/" ++ ((((url.splitOn "/").getLastD "").splitOn ".").headD "")

/-- `DELETE /api/documents/:id` of `src/unnamed/part_003` (lines
239-265): the Cloudinary delete is wrapped in its own `try`/`catch`
(`console.warn` and continue), then the metadata row is deleted and
`{success:true}` is sent; a failing row `DELETE` lands in the outer
`catch` with HTTP 500.  `dbDeleteOk` is the behaviour of the row
deletion. -/
def deleteScan (destroyOk dbDeleteOk : Bool) (id : String) (w : World) : LifeOutcome :=
  match w.docs.find? (fun r => r.id == id) with
  | none => { resp := .err 404 "Not found", world := w, calls := [] }
  | some d =>
    if dbDeleteOk then
      { resp := .okSuccess
        world := { docs := w.docs.filter (fun r => !(r.id == id))
                   blobs := if destroyOk then w.blobs.erase (deriveKey d.file_url) else w.blobs }
        calls := [.cloudDestroyCall, .dbDeleteCall] }
    else
      { resp := .err 500 "db delete failed"
        world := { w with
                   blobs := if destroyOk then w.blobs.erase (deriveKey d.file_url) else w.blobs }
        calls := [.cloudDestroyCall, .dbDeleteCall] }

/-! ### Helper lemmas: `ILIKE '%s%'` against a wildcard-free search term
is exactly case-insensitive substring containment. -/

/-- Lower-casing never produces a SQL wildcard character. -/
theorem lowerChar_ne_wild (c : Char) (h1 : c ≠ '%') (h2 : c ≠ '_') :
    lowerChar c ≠ '%' ∧ lowerChar c ≠ '_' := by
  unfold lowerChar
  split
  all_goals first | decide | exact ⟨h1, h2⟩

/-- A wildcard-free `LIKE` pattern followed by `%` matches exactly the
texts it is a prefix of. -/
theorem likeMatch_lit (n : List Char) (hn : ∀ c ∈ n, c ≠ '%' ∧ c ≠ '_') :
    ∀ s, likeMatch (n ++ ['%']) s = prefixMatch n s := by
  induction n with
  | nil =>
    intro s
    have hp : ∀ s2 : List Char, s2.tails.any (fun t => likeMatch [] t) = true := by
      intro s2
      induction s2 with
      | nil => rfl
      | cons c s3 ih => simp only [List.tails_cons, List.any_cons, ih, Bool.or_true]
    simp only [List.nil_append, prefixMatch]
    show (fun s => likeMatch ['%'] s) s = true
    simp only [likeMatch, if_pos rfl]
    exact hp s
  | cons c n2 ih =>
    intro s
    have hc := hn c (List.mem_cons_self c n2)
    have hrest : ∀ x ∈ n2, x ≠ '%' ∧ x ≠ '_' := fun x hx => hn x (List.mem_cons_of_mem c hx)
    cases s with
    | nil =>
      simp only [List.cons_append, likeMatch, if_neg hc.1, prefixMatch]
    | cons d s2 =>
      simp only [List.cons_append, likeMatch, if_neg hc.1, prefixMatch, List.append_eq,
        ih hrest s2]
      have hu : (c == '_') = false := by
        simp only [beq_eq_false_iff_ne]; exact hc.2
      rw [hu, Bool.false_or]

/-- For a wildcard-free search term `n`, the pattern `%n%` matches a
text exactly when `n` occurs in it as a substring. -/
theorem likeMatch_wrap (n : List Char) (hn : ∀ c ∈ n, c ≠ '%' ∧ c ≠ '_') (s : List Char) :
    likeMatch ('%' :: (n ++ ['%'])) s = subStringIn n s := by
  show (fun s => likeMatch ('%' :: (n ++ ['%'])) s) s = subStringIn n s
  simp only [likeMatch, if_pos, if_true, subStringIn]
  congr 1
  funext t
  exact likeMatch_lit n hn t

/-- The route's `ILIKE '%s%'` test coincides with the specification's
case-insensitive substring containment whenever the search term holds no
SQL wildcard character. -/
theorem ilikeCI_eq_containsCI (pat s : String) (h : noWildcards pat) :
    ilikeCI pat s = containsCI pat s := by
  unfold ilikeCI containsCI
  apply likeMatch_wrap
  intro c hc
  obtain ⟨c0, hc0, rfl⟩ := List.mem_map.mp hc
  exact lowerChar_ne_wild c0 (h c0 hc0).1 (h c0 hc0).2

/-- Pointwise, the assembled `WHERE` clause equals the specification's
conjunction of filters, for wildcard-free search terms. -/
theorem implMatch_eq_spec (q : ListQuery) (f0 t0 : Option Nat)
    (hs : noWildcards q.search) (r : Doc) :
    implMatch q f0 t0 r = specMatch
      { searchTerm := if q.search = "" then none else some q.search
        fromDate := f0
        toDate := t0
        docType := typeFilter q.typeQ } r := by
  unfold implMatch specMatch searchPred
  by_cases h : q.search = ""
  · simp [h]
  · rw [if_neg h]
    have hbeq : (q.search == "") = false := by simp [h]
    simp only [hbeq, Bool.false_or, ilikeCI_eq_containsCI _ _ hs]

/-- With both date parameters handled without a cast error, the listing
returns the sorted filtered rows. -/
theorem listDocsA_ok (cast : String → Option Nat) (q : ListQuery) (rows : List Doc)
    (f0 t0 : Option Nat)
    (hf : dateBound cast q.fromQ = .ok f0) (ht : dateBound cast q.toQ = .ok t0) :
    listDocsA cast q rows =
      .ok (List.insertionSort docGE (rows.filter (implMatch q f0 t0))) := by
  unfold listDocsA
  rw [hf, ht]

/-- Every row the listing returns comes from the store. -/
theorem listDocsA_subset (cast : String → Option Nat) (q : ListQuery)
    (rows l : List Doc) (h : listDocsA cast q rows = .ok l) :
    ∀ r ∈ l, r ∈ rows := by
  unfold listDocsA at h
  cases hf : dateBound cast q.fromQ with
  | error e => rw [hf] at h; cases h
  | ok f0 =>
    rw [hf] at h
    cases ht : dateBound cast q.toQ with
    | error e => rw [ht] at h; cases h
    | ok t0 =>
      rw [ht] at h
      cases h
      intro r hr
      rw [List.mem_insertionSort] at hr
      exact (List.mem_filter.mp hr).1

/-- Two queries agreeing on search and type whose date parameters
resolve alike produce the same listing. -/
theorem listDocsA_congr (cast : String → Option Nat) (q q2 : ListQuery) (rows : List Doc)
    (hs : q.search = q2.search) (hty : q.typeQ = q2.typeQ)
    (hf : dateBound cast q.fromQ = dateBound cast q2.fromQ)
    (ht : dateBound cast q.toQ = dateBound cast q2.toQ) :
    listDocsA cast q rows = listDocsA cast q2 rows := by
  have himpl : ∀ f0 t0, implMatch q f0 t0 = implMatch q2 f0 t0 := by
    intro f0 t0
    funext r
    unfold implMatch searchPred
    rw [hs, hty]
  unfold listDocsA
  rw [hf, ht]
  simp only [himpl]

/-- The error text `dateBound` can raise is the fixed cast-failure
message. -/
theorem dateBound_error (cast : String → Option Nat) (s? : Option String) (e : String)
    (h : dateBound cast s? = .error e) :
    e = "invalid input syntax for type timestamp" := by
  cases s? with
  | none => simp [dateBound] at h
  | some s =>
    by_cases hw : hasNonWS s = true
    · cases hc : cast s with
      | none =>
        have heq : dateBound cast (some s) =
            .error "invalid input syntax for type timestamp" := by
          simp [dateBound, hw, hc]
        rw [heq] at h
        injection h with h2
        exact h2.symm
      | some t =>
        have heq : dateBound cast (some s) = .ok (some t) := by
          simp [dateBound, hw, hc]
        rw [heq] at h
        cases h
    · have heq : dateBound cast (some s) = .ok none := by
        simp [dateBound, hw]
      rw [heq] at h
      cases h

/-! ### Shared concrete data for witnesses and counterexamples. -/

/-- An environment in which every external collaborator behaves. -/
def envAllOk : Env :=
  { scan := .clean
    cloud := some { secure_url := "https://cdn/x", public_id := "samkitec_reports/x" }
    insertOk := true
    enableClamav := true
    newId := "id-1"
    now := 10 }

/-- A well-formed PDF upload request. -/
def reqPdf : UploadReq :=
  { file := some { originalname := "r.pdf", mimetype := "application/pdf", size := 7 }
    body := { title := "T", description := "", doc_type := "work" } }

/-! ### Claim C1 -/

/-- A zero-byte PDF upload request. -/
def zeroByteReq : UploadReq :=
  { file := some { originalname := "empty.pdf", mimetype := "application/pdf", size := 0 }
    body := { title := "", description := "", doc_type := "" } }

/-- C1 is false on the code: a zero-byte file of an allowed type is not
rejected by the primary upload route — it is stored in the object store,
a metadata record of size 0 is created, and the response is a success,
not `InvalidInput`. -/
theorem uploadA_zero_byte_counterexample :
    zeroByteReq.file =
      some { originalname := "empty.pdf", mimetype := "application/pdf", size := 0 } ∧
    (uploadA envAllOk zeroByteReq ⟨[], []⟩).resp = .okIdUrl "id-1" "https://cdn/x" ∧
    (uploadA envAllOk zeroByteReq ⟨[], []⟩).world.blobs = ["samkitec_reports/x"] ∧
    (uploadA envAllOk zeroByteReq ⟨[], []⟩).world.docs.map Doc.size = [0] :=
  ⟨rfl, rfl, rfl, rfl⟩

/-- C1 (amended): the primary upload route performs no size check.  A
zero-byte payload with an allowed declared MIME type proceeds through
the pipeline like any other upload: the blob is stored and a metadata
record with `size = 0` is created. -/
theorem uploadA_zero_byte_accepted (env : Env) (req : UploadReq) (w : World)
    (f : FileInfo) (c : CloudRes)
    (hf : req.file = some f) (hsz : f.size = 0) (hmt : f.mimetype ∈ allowedTypes)
    (hc : env.cloud = some c) (hi : env.insertOk = true) :
    (uploadA env req w).resp = .okIdUrl env.newId c.secure_url ∧
    (uploadA env req w).world.docs = mkDocA env f req.body c :: w.docs ∧
    (mkDocA env f req.body c).size = 0 ∧
    (uploadA env req w).world.blobs = c.public_id :: w.blobs := by
  simp [uploadA, hf, hmt, hc, hi, mkDocA, hsz]

/-- Witness for C1's amended theorem at a concrete input. -/
theorem uploadA_zero_byte_accepted_witness :
    ("application/pdf" ∈ allowedTypes) ∧
    (uploadA envAllOk zeroByteReq ⟨[], []⟩).resp = .okIdUrl envAllOk.newId "https://cdn/x" ∧
    (uploadA envAllOk zeroByteReq ⟨[], []⟩).world.docs =
      mkDocA envAllOk ⟨"empty.pdf", "application/pdf", 0⟩ zeroByteReq.body
        ⟨"https://cdn/x", "samkitec_reports/x"⟩ :: ([] : List Doc) ∧
    (mkDocA envAllOk ⟨"empty.pdf", "application/pdf", 0⟩ zeroByteReq.body
      ⟨"https://cdn/x", "samkitec_reports/x"⟩).size = 0 ∧
    (uploadA envAllOk zeroByteReq ⟨[], []⟩).world.blobs = "samkitec_reports/x" :: [] :=
  ⟨by decide,
   uploadA_zero_byte_accepted envAllOk zeroByteReq ⟨[], []⟩
     ⟨"empty.pdf", "application/pdf", 0⟩ ⟨"https://cdn/x", "samkitec_reports/x"⟩
     rfl rfl (by decide) rfl rfl⟩

/-! ### Claim C2 -/

/-- The all-ok environment with a failing metadata `INSERT`. -/
def envInsertFail : Env := { envAllOk with insertOk := false }

/-- C2 is false on the code: when the metadata insert fails after the
blob was stored, no Cloudinary delete is attempted (the call trace holds
no destroy call) and the blob stays in the object store. -/
theorem uploadA_no_compensating_delete_counterexample :
    (uploadA envInsertFail reqPdf ⟨[], []⟩).resp = .err 500 "insert failed" ∧
    (uploadA envInsertFail reqPdf ⟨[], []⟩).world.blobs = ["samkitec_reports/x"] ∧
    (uploadA envInsertFail reqPdf ⟨[], []⟩).calls = [.cloudUploadCall, .dbInsertCall] :=
  ⟨rfl, rfl, rfl⟩

/-- C2 (amended): when the metadata insert fails after the blob was
stored, the route only removes the already-deleted temp file and answers
HTTP 500; it never attempts to delete the just-created blob, which stays
behind in the object store as an orphan. -/
theorem uploadA_insert_fail_orphans_blob (env : Env) (req : UploadReq) (w : World)
    (f : FileInfo) (c : CloudRes)
    (hf : req.file = some f) (hmt : f.mimetype ∈ allowedTypes)
    (hc : env.cloud = some c) (hi : env.insertOk = false) :
    (uploadA env req w).resp = .err 500 "insert failed" ∧
    (uploadA env req w).world.blobs = c.public_id :: w.blobs ∧
    (uploadA env req w).world.docs = w.docs ∧
    ExtCall.cloudDestroyCall ∉ (uploadA env req w).calls := by
  simp [uploadA, hf, hmt, hc, hi]

/-- Witness for C2's amended theorem at a concrete input. -/
theorem uploadA_insert_fail_orphans_blob_witness :
    ("application/pdf" ∈ allowedTypes) ∧
    (uploadA envInsertFail reqPdf ⟨[], []⟩).resp = .err 500 "insert failed" ∧
    (uploadA envInsertFail reqPdf ⟨[], []⟩).world.blobs = "samkitec_reports/x" :: [] ∧
    (uploadA envInsertFail reqPdf ⟨[], []⟩).world.docs = ([] : List Doc) ∧
    ExtCall.cloudDestroyCall ∉ (uploadA envInsertFail reqPdf ⟨[], []⟩).calls :=
  ⟨by decide,
   uploadA_insert_fail_orphans_blob envInsertFail reqPdf ⟨[], []⟩
     ⟨"r.pdf", "application/pdf", 7⟩ ⟨"https://cdn/x", "samkitec_reports/x"⟩
     rfl (by decide) rfl rfl⟩

/-! ### Claim C3 -/

/-- A request with a declared MIME type outside the allowed set. -/
def reqTxt : UploadReq :=
  { file := some { originalname := "notes.txt", mimetype := "text/plain", size := 5 }
    body := { title := "", description := "", doc_type := "" } }

/-- C3 is false on the code as a statement about every upload route: the
`part_003` route has no MIME-type check, so a `text/plain` upload is
scanned, stored, and recorded instead of being rejected. -/
theorem uploadScan_accepts_any_type_counterexample :
    ("text/plain" ∉ allowedTypes) ∧
    (uploadScan envAllOk reqTxt ⟨[], []⟩).world.docs.map Doc.mime_type = ["text/plain"] ∧
    (uploadScan envAllOk reqTxt ⟨[], []⟩).world.blobs = ["samkitec_reports/x"] ∧
    (uploadScan envAllOk reqTxt ⟨[], []⟩).calls =
      [.scanCall, .cloudUploadCall, .dbInsertCall] :=
  ⟨by decide, rfl, rfl, rfl⟩

/-- C3 (amended): the `index.js` upload route rejects a disallowed
declared MIME type with HTTP 400 before any scanner or object-store
call, creating no record and no blob; the `part_003` scanner route,
however, performs no MIME-type check at all. -/
theorem uploadA_rejects_disallowed_type (env : Env) (req : UploadReq) (w : World)
    (f : FileInfo) (hf : req.file = some f) (hmt : f.mimetype ∉ allowedTypes) :
    uploadA env req w =
      { resp := .err 400 "Invalid file type", world := w, calls := [], tempDeleted := true } := by
  simp [uploadA, hf, hmt]

/-- Witness for C3's amended theorem at a concrete input. -/
theorem uploadA_rejects_disallowed_type_witness :
    ("text/plain" ∉ allowedTypes) ∧
    uploadA envAllOk reqTxt ⟨[], []⟩ =
      { resp := .err 400 "Invalid file type", world := ⟨[], []⟩, calls := [],
        tempDeleted := true } :=
  ⟨by decide,
   uploadA_rejects_disallowed_type envAllOk reqTxt ⟨[], []⟩
     ⟨"notes.txt", "text/plain", 5⟩ rfl (by decide)⟩

/-! ### Claim C4 -/

/-- C4 is false on the code as a statement about every scanned route:
the ClamAV variant of `index.js` reports an infected file through its
generic `catch`, answering HTTP 500 — a server fault, not the claimed
400-class response. -/
theorem uploadB_infected_500_counterexample :
    (uploadB { envAllOk with scan := .infected ["Eicar-Test"] } reqPdf ⟨[], []⟩).resp
      = .err 500 "Virus detected" ∧
    (uploadB { envAllOk with scan := .infected ["Eicar-Test"] } reqPdf ⟨[], []⟩).world
      = ⟨[], []⟩ :=
  ⟨rfl, rfl⟩

/-- C4 (amended): when the scanner reports the file infected, the
`part_003` route deletes the temp file and answers HTTP 400 with no
record and no blob created; the ClamAV variant of `index.js` also
creates no record and no blob but answers HTTP 500 through its generic
error path. -/
theorem uploadScan_infected_rejected (env : Env) (req : UploadReq) (w : World)
    (f : FileInfo) (vs : List String)
    (hf : req.file = some f) (hs : env.scan = .infected vs) :
    (uploadScan env req w).resp =
      .err 400 "Security Alert: File rejected due to virus detection." ∧
    (uploadScan env req w).world = w ∧
    (uploadScan env req w).calls = [.scanCall] ∧
    (uploadScan env req w).tempDeleted = true ∧
    (env.enableClamav = true → f.mimetype ∈ allowedTypes →
      (uploadB env req w).resp = .err 500 "Virus detected" ∧
      (uploadB env req w).world = w) := by
  refine ⟨?_, ?_, ?_, ?_, ?_⟩
  · simp [uploadScan, hf, hs]
  · simp [uploadScan, hf, hs]
  · simp [uploadScan, hf, hs]
  · simp [uploadScan, hf, hs]
  · intro h1 h2
    constructor
    · simp [uploadB, hf, h1, h2, hs]
    · simp [uploadB, hf, h1, h2, hs]

/-- Witness for C4's amended theorem at a concrete input. -/
theorem uploadScan_infected_rejected_witness :
    (uploadScan { envAllOk with scan := .infected ["Eicar-Test"] } reqPdf ⟨[], []⟩).resp =
      .err 400 "Security Alert: File rejected due to virus detection." ∧
    (uploadScan { envAllOk with scan := .infected ["Eicar-Test"] } reqPdf ⟨[], []⟩).world
      = ⟨[], []⟩ ∧
    (uploadScan { envAllOk with scan := .infected ["Eicar-Test"] } reqPdf ⟨[], []⟩).calls
      = [.scanCall] ∧
    (uploadScan { envAllOk with scan := .infected ["Eicar-Test"] } reqPdf
      ⟨[], []⟩).tempDeleted = true := by
  have h := uploadScan_infected_rejected { envAllOk with scan := .infected ["Eicar-Test"] }
    reqPdf ⟨[], []⟩ ⟨"r.pdf", "application/pdf", 7⟩ ["Eicar-Test"] rfl rfl
  exact ⟨h.1, h.2.1, h.2.2.1, h.2.2.2.1⟩

/-! ### Claim C5 -/

/-- C5 is false on the code: with scanning enabled and the scanner
unavailable, the upload does not continue to storage — the error lands
in the `catch` and the request fails with HTTP 500, storing nothing. -/
theorem scanner_unavailable_counterexample :
    (uploadScan { envAllOk with scan := .unavailable } reqPdf ⟨[], []⟩).resp
      = .err 500 "scanner unavailable" ∧
    (uploadScan { envAllOk with scan := .unavailable } reqPdf ⟨[], []⟩).world = ⟨[], []⟩ ∧
    (uploadB { envAllOk with scan := .unavailable } reqPdf ⟨[], []⟩).resp
      = .err 500 "scanner unavailable" :=
  ⟨rfl, rfl, rfl⟩

/-- C5 (amended): when scanning is enabled and the scanner fails to
respond, both scanned routes fail closed: the error propagates to the
generic `catch`, the upload is answered with HTTP 500, and neither a
blob nor a metadata record is created.  No fail-open path exists in the
source. -/
theorem scanner_unavailable_fails_closed (env : Env) (req : UploadReq) (w : World)
    (f : FileInfo) (hf : req.file = some f) (hs : env.scan = .unavailable) :
    (uploadScan env req w).resp = .err 500 "scanner unavailable" ∧
    (uploadScan env req w).world = w ∧
    ExtCall.cloudUploadCall ∉ (uploadScan env req w).calls ∧
    (env.enableClamav = true → f.mimetype ∈ allowedTypes →
      (uploadB env req w).resp = .err 500 "scanner unavailable" ∧
      (uploadB env req w).world = w) := by
  refine ⟨?_, ?_, ?_, ?_⟩
  · simp [uploadScan, hf, hs]
  · simp [uploadScan, hf, hs]
  · simp [uploadScan, hf, hs]
  · intro h1 h2
    constructor
    · simp [uploadB, hf, h1, h2, hs]
    · simp [uploadB, hf, h1, h2, hs]

/-- Witness for C5's amended theorem at a concrete input. -/
theorem scanner_unavailable_fails_closed_witness :
    (uploadScan { envAllOk with scan := .unavailable } reqPdf ⟨[], []⟩).resp
      = .err 500 "scanner unavailable" ∧
    (uploadScan { envAllOk with scan := .unavailable } reqPdf ⟨[], []⟩).world = ⟨[], []⟩ ∧
    ExtCall.cloudUploadCall ∉
      (uploadScan { envAllOk with scan := .unavailable } reqPdf ⟨[], []⟩).calls := by
  have h := scanner_unavailable_fails_closed { envAllOk with scan := .unavailable }
    reqPdf ⟨[], []⟩ ⟨"r.pdf", "application/pdf", 7⟩ rfl rfl
  exact ⟨h.1, h.2.1, h.2.2.1⟩

/-! ### Claim C10 -/

/-- C10 (confirmed): the primary `index.js` upload route hard-codes `''`
in the `description` column of its `INSERT`, discarding any
client-supplied description, while the `part_003` route stores the
supplied description. -/
theorem upload_description_policy (env : Env) (req : UploadReq) (w : World)
    (f : FileInfo) (c : CloudRes)
    (hf : req.file = some f) (hmt : f.mimetype ∈ allowedTypes)
    (hc : env.cloud = some c) (hi : env.insertOk = true) (hs : env.scan = .clean) :
    ((uploadA env req w).world.docs = mkDocA env f req.body c :: w.docs ∧
     (mkDocA env f req.body c).description = "") ∧
    ((uploadScan env req w).world.docs = mkDocScan env f req.body c :: w.docs ∧
     (mkDocScan env f req.body c).description = req.body.description) := by
  refine ⟨⟨?_, rfl⟩, ⟨?_, ?_⟩⟩
  · simp [uploadA, hf, hmt, hc, hi]
  · simp [uploadScan, hf, hs, hc, hi]
  · unfold mkDocScan
    by_cases h : req.body.description = "" <;> simp [h]

/-- An upload request carrying a client-supplied description. -/
def reqDesc : UploadReq :=
  { file := some { originalname := "r.pdf", mimetype := "application/pdf", size := 7 }
    body := { title := "T", description := "hello", doc_type := "work" } }

/-- Witness for C10 at a concrete input: the client sends description
`"hello"`; the primary route stores `""`, the scanner route stores
`"hello"`. -/
theorem upload_description_policy_witness :
    ("application/pdf" ∈ allowedTypes) ∧
    (((uploadA envAllOk reqDesc ⟨[], []⟩).world.docs =
        mkDocA envAllOk ⟨"r.pdf", "application/pdf", 7⟩ reqDesc.body
          ⟨"https://cdn/x", "samkitec_reports/x"⟩ :: ([] : List Doc) ∧
      (mkDocA envAllOk ⟨"r.pdf", "application/pdf", 7⟩ reqDesc.body
        ⟨"https://cdn/x", "samkitec_reports/x"⟩).description = "") ∧
     ((uploadScan envAllOk reqDesc ⟨[], []⟩).world.docs =
        mkDocScan envAllOk ⟨"r.pdf", "application/pdf", 7⟩ reqDesc.body
          ⟨"https://cdn/x", "samkitec_reports/x"⟩ :: ([] : List Doc) ∧
      (mkDocScan envAllOk ⟨"r.pdf", "application/pdf", 7⟩ reqDesc.body
        ⟨"https://cdn/x", "samkitec_reports/x"⟩).description = reqDesc.body.description)) :=
  ⟨by decide,
   upload_description_policy envAllOk reqDesc ⟨[], []⟩
     ⟨"r.pdf", "application/pdf", 7⟩ ⟨"https://cdn/x", "samkitec_reports/x"⟩
     rfl (by decide) rfl rfl rfl⟩

/-! ### Claim C6 -/

/-- A stored record used by the listing witnesses, dated 2024-01-15. -/
def docL1 : Doc :=
  ⟨"L1", "alpha.pdf", "u1", "p1", "application/pdf", 3, 20240115, "Quarterly Report", "", "work"⟩

/-- A second stored record, dated 2023-12-01. -/
def docL2 : Doc :=
  ⟨"L2", "beta.pdf", "u2", "p2", "application/pdf", 4, 20231201, "report beta", "", "process"⟩

/-- A record whose title holds no occurrence of the search term used in
the counterexample. -/
def docWild : Doc :=
  ⟨"W1", "doc.pdf", "u", "p", "application/pdf", 3, 5, "axb", "", "process"⟩

/-- C6 is false on the code: the search text is spliced into an `ILIKE`
pattern with no escaping, so `_` and `%` act as wildcards.  Searching
`"a_b"` returns a record whose title and original name hold no
substring `"a_b"`.  Moreover a malformed date filter makes the listing
raise instead of returning a result set. -/
theorem listDocsA_wildcard_counterexample :
    listDocsA pgCast { search := "a_b", fromQ := none, toQ := none, typeQ := none }
      [docWild] = .ok [docWild] ∧
    containsCI "a_b" docWild.title = false ∧
    containsCI "a_b" docWild.original_name = false ∧
    listDocsA pgCast { search := "", fromQ := some "not-a-date", toQ := none, typeQ := none }
      [docWild] = .error "invalid input syntax for type timestamp" :=
  ⟨rfl, by decide, by decide, rfl⟩

/-- C6 (amended): for every store and every combination of filters in
which the two date parameters are handled without a cast error and the
search term holds no SQL wildcard character, the listing returns
exactly the records satisfying the conjunction of the supplied filters
— search matching case-insensitively as a substring of title or
original name, `doc_type` matching exactly with `'all'`, empty, or
absent meaning no type filter — ordered by `upload_date` descending,
and an empty result is an empty list, not an error.  For search terms
holding `%` or `_` the `ILIKE` pattern semantics applies instead, and a
failing date cast raises (claim C7). -/
theorem listDocsA_refines_spec (cast : String → Option Nat) (q : ListQuery)
    (rows : List Doc) (f0 t0 : Option Nat)
    (hs : noWildcards q.search)
    (hf : dateBound cast q.fromQ = .ok f0)
    (ht : dateBound cast q.toQ = .ok t0) :
    ∃ l, listDocsA cast q rows = .ok l ∧
      l.Perm (rows.filter (specMatch
        { searchTerm := if q.search = "" then none else some q.search
          fromDate := f0
          toDate := t0
          docType := typeFilter q.typeQ })) ∧
      List.Sorted docGE l := by
  refine ⟨List.insertionSort docGE (rows.filter (implMatch q f0 t0)),
    listDocsA_ok cast q rows f0 t0 hf ht, ?_, List.sorted_insertionSort docGE _⟩
  have hfe : rows.filter (implMatch q f0 t0) = rows.filter (specMatch
      { searchTerm := if q.search = "" then none else some q.search
        fromDate := f0
        toDate := t0
        docType := typeFilter q.typeQ }) :=
    List.filter_congr (fun r _ => implMatch_eq_spec q f0 t0 hs r)
  rw [← hfe]
  exact List.perm_insertionSort docGE _

/-- Witness for C6's amended theorem at a concrete store and query. -/
theorem listDocsA_refines_spec_witness :
    noWildcards "report" ∧
    dateBound pgCast (some "2024-01-01") = .ok (some 20240101) ∧
    (∃ l, listDocsA pgCast
        { search := "report", fromQ := some "2024-01-01", toQ := none, typeQ := some "work" }
        [docL1, docL2] = .ok l ∧
      l.Perm ([docL1, docL2].filter (specMatch
        { searchTerm := if ("report" : String) = "" then none else some "report"
          fromDate := some 20240101
          toDate := none
          docType := typeFilter (some "work") })) ∧
      List.Sorted docGE l) :=
  ⟨by decide, rfl,
   listDocsA_refines_spec pgCast
     { search := "report", fromQ := some "2024-01-01", toQ := none, typeQ := some "work" }
     [docL1, docL2] (some 20240101) none (by decide) rfl rfl⟩

/-! ### Claim C7 -/

/-- C7 is false on the code: a non-empty malformed date value is passed
to the `::timestamp` cast, whose failure makes the listing answer an
error rather than treating the filter as absent.  An empty or blank
string, by contrast, is skipped. -/
theorem listDocsA_malformed_date_counterexample :
    listDocsA pgCast { search := "", fromQ := none, toQ := some "31/12/2024", typeQ := none }
      [docL1] = .error "invalid input syntax for type timestamp" ∧
    listDocsA pgCast { search := "", fromQ := some "", toQ := none, typeQ := none }
      [docL1] = .ok [docL1] :=
  ⟨rfl, rfl⟩

/-- C7 (amended): a `from`/`to` parameter that is empty or
whitespace-only is treated as an absent filter and the listing answers
normally; any other string is handed to the SQL timestamp cast, and a
failing cast makes the listing return an error (surfaced as HTTP 500)
instead of treating the parameter as absent. -/
theorem listDocsA_date_param_handling (cast : String → Option Nat) (q : ListQuery)
    (rows : List Doc) (s t : String) :
    (q.fromQ = some s → hasNonWS s = false →
      listDocsA cast q rows = listDocsA cast { q with fromQ := none } rows) ∧
    (q.fromQ = some s → hasNonWS s = true → cast s = none →
      listDocsA cast q rows = .error "invalid input syntax for type timestamp") ∧
    (q.toQ = some t → hasNonWS t = false →
      listDocsA cast q rows = listDocsA cast { q with toQ := none } rows) ∧
    (q.toQ = some t → hasNonWS t = true → cast t = none →
      listDocsA cast q rows = .error "invalid input syntax for type timestamp") := by
  refine ⟨?_, ?_, ?_, ?_⟩
  · intro h1 h2
    refine listDocsA_congr cast q { q with fromQ := none } rows rfl rfl ?_ rfl
    rw [h1]
    simp [dateBound, h2]
  · intro h1 h2 h3
    have hb : dateBound cast q.fromQ =
        .error "invalid input syntax for type timestamp" := by
      rw [h1]; simp [dateBound, h2, h3]
    simp [listDocsA, hb]
  · intro h1 h2
    refine listDocsA_congr cast q { q with toQ := none } rows rfl rfl rfl ?_
    rw [h1]
    simp [dateBound, h2]
  · intro h1 h2 h3
    have hb : dateBound cast q.toQ =
        .error "invalid input syntax for type timestamp" := by
      rw [h1]; simp [dateBound, h2, h3]
    cases hfr : dateBound cast q.fromQ with
    | error e =>
      have he := dateBound_error cast q.fromQ e hfr
      simp [listDocsA, hfr, he]
    | ok f0 => simp [listDocsA, hfr, hb]

/-- Witness for C7's amended theorem at concrete inputs: a blank `from`
behaves like an absent one, and a malformed `to` raises. -/
theorem listDocsA_date_param_handling_witness :
    (listDocsA pgCast { search := "", fromQ := some "   ", toQ := none, typeQ := none }
        [docL1] =
      listDocsA pgCast { search := "", fromQ := none, toQ := none, typeQ := none } [docL1]) ∧
    (listDocsA pgCast { search := "", fromQ := none, toQ := some "next week", typeQ := none }
        [docL1] = .error "invalid input syntax for type timestamp") := by
  constructor
  · exact (listDocsA_date_param_handling pgCast
      { search := "", fromQ := some "   ", toQ := none, typeQ := none }
      [docL1] "   " "x").1 rfl (by decide)
  · exact (listDocsA_date_param_handling pgCast
      { search := "", fromQ := none, toQ := some "next week", typeQ := none }
      [docL1] "x" "next week").2.2.2 rfl (by decide) (by decide)

/-! ### Claim C8 -/

/-- C8 (confirmed): a rename with an existing id updates only the
`title` column — every other field of every row, the row count, and the
object-store contents stay unchanged — and a rename with a nonexistent
id answers `NotFound` and leaves the store entirely unchanged. -/
theorem renameA_frame (id title : String) (w : World) :
    ((∀ d ∈ w.docs, d.id ≠ id) →
      renameA id title w = { resp := .err 404 "Not found", world := w, calls := [] }) ∧
    ((∃ d ∈ w.docs, d.id = id) →
      (renameA id title w).world.blobs = w.blobs ∧
      (renameA id title w).world.docs.length = w.docs.length ∧
      ∀ (i : Nat) (r r2 : Doc), w.docs[i]? = some r →
        (renameA id title w).world.docs[i]? = some r2 →
        r2.id = r.id ∧ r2.original_name = r.original_name ∧
        r2.file_url = r.file_url ∧ r2.file_public_id = r.file_public_id ∧
        r2.mime_type = r.mime_type ∧ r2.size = r.size ∧
        r2.upload_date = r.upload_date ∧ r2.description = r.description ∧
        r2.doc_type = r.doc_type ∧
        (r.id = id → r2.title = title) ∧ (r.id ≠ id → r2 = r)) := by
  constructor
  · intro hall
    have hfind : w.docs.find? (fun r => r.id == id) = none := by
      rw [List.find?_eq_none]
      intro x hx
      simp [hall x hx]
    unfold renameA
    rw [hfind]
  · intro hex
    have hsome : (w.docs.find? (fun r => r.id == id)).isSome := by
      rw [List.find?_isSome]
      obtain ⟨d, hd, hid⟩ := hex
      exact ⟨d, hd, by simp [hid]⟩
    obtain ⟨d, hfind⟩ := Option.isSome_iff_exists.mp hsome
    unfold renameA
    rw [hfind]
    refine ⟨rfl, by simp, ?_⟩
    intro i r r2 hr hr2
    simp only [List.getElem?_map, hr, Option.map_some'] at hr2
    injection hr2 with hr2
    by_cases hid : r.id = id
    · rw [if_pos (by simp [hid])] at hr2
      subst hr2
      refine ⟨rfl, rfl, rfl, rfl, rfl, rfl, rfl, rfl, rfl, fun _ => rfl, fun hne => ?_⟩
      exact absurd hid hne
    · rw [if_neg (by simp [hid])] at hr2
      subst hr2
      exact ⟨rfl, rfl, rfl, rfl, rfl, rfl, rfl, rfl, rfl, fun h => absurd h hid, fun _ => rfl⟩

/-- Witness for C8 at a concrete store: renaming an existing id keeps
blobs and row count, and renaming a missing id answers `NotFound` with
the store unchanged. -/
theorem renameA_frame_witness :
    renameA "ghost" "t" ⟨[docL1, docL2], ["b1"]⟩ =
      { resp := .err 404 "Not found", world := ⟨[docL1, docL2], ["b1"]⟩, calls := [] } ∧
    (renameA "L1" "New Title" ⟨[docL1, docL2], ["b1"]⟩).world.blobs = ["b1"] ∧
    (renameA "L1" "New Title" ⟨[docL1, docL2], ["b1"]⟩).world.docs.length =
      ([docL1, docL2] : List Doc).length := by
  have h1 := (renameA_frame "ghost" "t" ⟨[docL1, docL2], ["b1"]⟩).1 (by decide)
  have h2 := (renameA_frame "L1" "New Title" ⟨[docL1, docL2], ["b1"]⟩).2
    ⟨docL1, by decide, rfl⟩
  exact ⟨h1, h2.1, h2.2.1⟩

/-! ### Claim C9 -/

/-- A record living in the store used by the delete claims. -/
def docDel : Doc :=
  ⟨"doc-3", "c.pdf", "https://cdn/raw/samkitec_reports/abc.pdf", "p3",
    "application/pdf", 6, 11, "C", "", "process"⟩

/-- The store holding just `docDel`. -/
def wDel : World := ⟨[docDel], ["samkitec_reports/abc"]⟩

/-- C9 is false on the code as a statement about the primary `index.js`
delete route: its Cloudinary destroy is not guarded, so a blob-deletion
failure aborts the handler before the row `DELETE` — the metadata row
stays, no success is returned, and a repeated delete of the same id does
not answer `NotFound`. -/
theorem deleteA_blob_failure_aborts_counterexample :
    (deleteA false "doc-3" wDel).resp = .err 500 "cloudinary destroy failed" ∧
    (deleteA false "doc-3" wDel).world.docs = [docDel] ∧
    (deleteA true "doc-3" (deleteA false "doc-3" wDel).world).resp ≠ .err 404 "Not found" :=
  ⟨rfl, rfl, by decide⟩

/-- C9 (amended): in the `part_003` delete route the blob deletion is
wrapped in its own `try`/`catch`, so whatever the object store does the
metadata row is still deleted, success is returned only once the row
deletion succeeded (a failing row deletion answers HTTP 500 instead),
every remaining row has a different id, any subsequent listing excludes
the record, and a subsequent delete of the same id answers `NotFound`.
In the primary `index.js` route, by contrast, a blob-deletion failure
aborts before the row is deleted. -/
theorem deleteScan_blob_failure_continues (destroyOk destroyOk2 : Bool) (id : String)
    (w : World) (d : Doc) (hfind : w.docs.find? (fun r => r.id == id) = some d) :
    (deleteScan destroyOk true id w).resp = .okSuccess ∧
    (∀ r ∈ (deleteScan destroyOk true id w).world.docs, r.id ≠ id) ∧
    (deleteScan destroyOk2 true id (deleteScan destroyOk true id w).world).resp
      = .err 404 "Not found" ∧
    (∀ cast q l,
      listDocsA cast q (deleteScan destroyOk true id w).world.docs = .ok l →
      ∀ r ∈ l, r.id ≠ id) ∧
    (deleteScan destroyOk false id w).resp = .err 500 "db delete failed" := by
  have hd1 : deleteScan destroyOk true id w =
      { resp := .okSuccess
        world := { docs := w.docs.filter (fun r => !(r.id == id))
                   blobs := if destroyOk then w.blobs.erase (deriveKey d.file_url)
                            else w.blobs }
        calls := [.cloudDestroyCall, .dbDeleteCall] } := by
    unfold deleteScan
    rw [hfind]
    rfl
  have hd2 : deleteScan destroyOk false id w =
      { resp := .err 500 "db delete failed"
        world := { w with blobs := if destroyOk then w.blobs.erase (deriveKey d.file_url)
                                   else w.blobs }
        calls := [.cloudDestroyCall, .dbDeleteCall] } := by
    unfold deleteScan
    rw [hfind]
    rfl
  have hmem : ∀ r ∈ (deleteScan destroyOk true id w).world.docs, r.id ≠ id := by
    intro r hr
    rw [hd1] at hr
    have h2 := (List.mem_filter.mp hr).2
    simpa using h2
  refine ⟨by rw [hd1], hmem, ?_, ?_, by rw [hd2]⟩
  · generalize hX : (deleteScan destroyOk true id w).world = X
    have hnone : X.docs.find? (fun r => r.id == id) = none := by
      rw [List.find?_eq_none]
      intro x hx
      have hx2 : x ∈ (deleteScan destroyOk true id w).world.docs := by
        rw [hX]; exact hx
      simpa using hmem x hx2
    unfold deleteScan
    rw [hnone]
  · intro cast q l hl r hr
    exact hmem r (listDocsA_subset cast q _ l hl r hr)

/-- Witness for C9's amended theorem at a concrete store, with a
failing blob deletion: success is still returned and the second delete
answers `NotFound`. -/
theorem deleteScan_blob_failure_continues_witness :
    (deleteScan false true "doc-3" wDel).resp = .okSuccess ∧
    (deleteScan true true "doc-3" (deleteScan false true "doc-3" wDel).world).resp
      = .err 404 "Not found" ∧
    (deleteScan false false "doc-3" wDel).resp = .err 500 "db delete failed" := by
  have h := deleteScan_blob_failure_continues false true "doc-3" wDel docDel (by decide)
  exact ⟨h.1, h.2.2.1, h.2.2.2.2⟩

end Samkitec
